import Mathlib

/-
Verification of the scraping-and-reconciliation pipeline of the
weather-currency-scraper repository, shallowly embedded from
src/app/jobs/recurring/scrape_countries_cities/scraper.py and
src/app/modules/weather/models.py.

Conventions of the embedding:
* A scraped pair (a Python dict with keys name and url) is `Entry`.
* Database rows carry a `Nat` identity standing for the uuid4 string
  primary key generated in app/utils/models.py; distinct Nat values
  stand for distinct uuids.  `DB.nextId` is the generator state.
* Browser effects (page lookups, city scrapes) are abstracted as
  outcome oracles: a function from attempt index to an outcome that is
  either a value or a raised exception carrying its message text.
* Blocking sleeps, log prints and jittered delays have no observable
  effect on the properties at stake and are not modelled.
-/

namespace Scraper

/-- A scraped pair with keys name and url, url possibly None
(scraper.py lines 124-127, 209-212). -/
structure Entry where
  name : String
  url : Option String
deriving DecidableEq, Repr

/-- A row of the countries table (models.py lines 5-18 with the uuid id
of BaseModel abstracted as a Nat). -/
structure Country where
  id : Nat
  name : String
  url : Option String
deriving DecidableEq, Repr

/-- A row of the cities table (models.py lines 20-27); country_id is the
declared ForeignKey to countries.id. -/
structure City where
  id : Nat
  name : String
  url : Option String
  country_id : Nat
deriving DecidableEq, Repr

/-- The relational store reachable through SessionLocal, plus the
identity-generator state. -/
structure DB where
  countries : List Country
  cities : List City
  nextId : Nat
deriving DecidableEq, Repr

/-- db.query(CountryModel).filter(CountryModel.name == n).first()
(scraper.py lines 352-354). -/
def findCountry (rows : List Country) (n : String) : Option Country :=
  rows.find? (fun r => r.name == n)

/-- In-place url mutation of the first countries row whose name matches,
as done on the ORM object at scraper.py line 359. -/
def updateFirstCountry (rows : List Country) (n : String) (u : Option String) : List Country :=
  match rows with
  | [] => []
  | r :: rs => if r.name == n then { r with url := u } :: rs else r :: updateFirstCountry rs n u

/-- Ordered-dict write country_name_to_id[k] = v (scraper.py lines 361, 371):
overwrite if the key exists, else append. -/
def mapSet (m : List (String × Nat)) (k : String) (v : Nat) : List (String × Nat) :=
  if m.any (fun p => p.1 == k) then m.map (fun p => if p.1 == k then (k, v) else p)
  else m ++ [(k, v)]

/-- Dict read country_name_to_id.get(k) (scraper.py line 591). -/
def mapGet (m : List (String × Nat)) (k : String) : Option Nat :=
  (m.find? (fun p => p.1 == k)).map (fun p => p.2)

/-- Session state while upsert_countries_to_db runs.  Inserts are
db.flush()-ed immediately (scraper.py line 369) and hence visible to the
name queries that follow in the same transaction, so they live directly
in rows. -/
structure CUState where
  rows : List Country
  mapping : List (String × Nat)
  inserted : Nat
  updated : Nat
  nid : Nat
deriving Repr

/-- Body of the per-entry loop of upsert_countries_to_db
(scraper.py lines 343-371): skip the hard-coded name Israel, look up by
name, update url when changed, else no-op; insert and flush when absent;
record the identity in the mapping. -/
def countryStep (st : CUState) (e : Entry) : CUState :=
  if e.name == "Israel" then st
  else
    match findCountry st.rows e.name with
    | some r =>
      let st' := if r.url ≠ e.url then
          { st with rows := updateFirstCountry st.rows e.name e.url, updated := st.updated + 1 }
        else st
      { st' with mapping := mapSet st'.mapping e.name r.id }
    | none =>
      { st with rows := st.rows ++ [⟨st.nid, e.name, e.url⟩],
                inserted := st.inserted + 1,
                mapping := mapSet st.mapping e.name st.nid,
                nid := st.nid + 1 }

/-- The full loop of upsert_countries_to_db over the batch. -/
def runCountryUpsert (data : List Entry) (st : CUState) : CUState :=
  data.foldl countryStep st

/-- Observable outcome of upsert_countries_to_db: the durable store after
the session closes, the returned country_name_to_id mapping, the printed
counters, and whether the transaction committed (false means the except
branch at scraper.py lines 384-388 ran: rollback plus log, no re-raise). -/
structure CountriesUpsertResult where
  db : DB
  mapping : List (String × Nat)
  inserted : Nat
  updated : Nat
  committed : Bool
deriving DecidableEq, Repr

/-- upsert_countries_to_db (scraper.py lines 322-393).  `failAt = some k`
with k < data.length injects an exception raised while entry k is being
processed (after the first k entries took effect in the session); the
handler rolls the transaction back, logs, and the function still returns
the mapping accumulated so far — it does not re-raise. -/
def upsert_countries_to_db (data : List Entry) (db : DB) (failAt : Option Nat) : CountriesUpsertResult :=
  let init : CUState := ⟨db.countries, [], 0, 0, db.nextId⟩
  match failAt with
  | some k =>
    if k < data.length then
      let st := runCountryUpsert (data.take k) init
      ⟨db, st.mapping, st.inserted, st.updated, false⟩
    else
      let st := runCountryUpsert data init
      ⟨{ db with countries := st.rows, nextId := st.nid }, st.mapping, st.inserted, st.updated, true⟩
  | none =>
    let st := runCountryUpsert data init
    ⟨{ db with countries := st.rows, nextId := st.nid }, st.mapping, st.inserted, st.updated, true⟩

/-- db.query(CityModel).filter(name == n, country_id == cid).first()
(scraper.py lines 417-420). -/
def findCity (rows : List City) (n : String) (cid : Nat) : Option City :=
  rows.find? (fun r => r.name == n && r.country_id == cid)

/-- In-place url mutation of the first matching cities row
(scraper.py line 425). -/
def updateFirstCity (rows : List City) (n : String) (cid : Nat) (u : Option String) : List City :=
  match rows with
  | [] => []
  | r :: rs =>
    if r.name == n && r.country_id == cid then { r with url := u } :: rs
    else r :: updateFirstCity rs n cid u

/-- Session state while upsert_cities_to_db runs.  SessionLocal is built
with autoflush=False (app/core/db.py line 21) and the city loop never
calls flush, so pending inserts are invisible to the queries of the same
batch: they accumulate in `pending`, separate from the queried rows. -/
structure CIState where
  rows : List City
  pending : List City
  inserted : Nat
  updated : Nat
  skipped : Nat
  nid : Nat
deriving Repr

/-- Body of the per-entry loop of upsert_cities_to_db
(scraper.py lines 412-437). -/
def cityStep (cid : Nat) (st : CIState) (e : Entry) : CIState :=
  match findCity st.rows e.name cid with
  | some r =>
    if r.url ≠ e.url then
      { st with rows := updateFirstCity st.rows e.name cid e.url, updated := st.updated + 1 }
    else
      { st with skipped := st.skipped + 1 }
  | none =>
    { st with pending := st.pending ++ [⟨st.nid, e.name, e.url, cid⟩],
              inserted := st.inserted + 1,
              nid := st.nid + 1 }

/-- The full loop of upsert_cities_to_db over one country's batch. -/
def runCityUpsert (cid : Nat) (data : List Entry) (st : CIState) : CIState :=
  data.foldl (cityStep cid) st

/-- Observable outcome of upsert_cities_to_db: durable store, printed
counters, and whether the transaction committed. -/
structure CitiesUpsertResult where
  db : DB
  inserted : Nat
  updated : Nat
  skipped : Nat
  committed : Bool
deriving DecidableEq, Repr

/-- upsert_cities_to_db (scraper.py lines 396-451).  `enforceFK` says
whether the backing database enforces the ForeignKey declared at
models.py line 25: true for engines that check it, false for the default
engine of app/core/db.py (sqlite:///./data/weather_tracker.db with no
PRAGMA foreign_keys=ON, so the constraint is not enforced).  When
enforcement is on and the batch tries to insert rows for an absent
country identity, db.commit() raises, the except branch at lines 444-448
rolls back and logs without re-raising.  `failAt` injects an exception
while entry k is processed, as for the country upsert. -/
def upsert_cities_to_db (data : List Entry) (cid : Nat) (db : DB) (enforceFK : Bool) (failAt : Option Nat) : CitiesUpsertResult :=
  let init : CIState := ⟨db.cities, [], 0, 0, 0, db.nextId⟩
  let commit : CIState → CitiesUpsertResult := fun st =>
    if enforceFK && !st.pending.isEmpty && !(db.countries.any (fun c => c.id == cid)) then
      ⟨db, st.inserted, st.updated, st.skipped, false⟩
    else
      ⟨{ db with cities := st.rows ++ st.pending, nextId := st.nid }, st.inserted, st.updated, st.skipped, true⟩
  match failAt with
  | some k =>
    if k < data.length then
      let st := runCityUpsert cid (data.take k) init
      ⟨db, st.inserted, st.updated, st.skipped, false⟩
    else
      commit (runCityUpsert cid data init)
  | none => commit (runCityUpsert cid data init)

/-
Element locator (scraper.py lines 28-53).  A page lookup at a given
attempt either yields a visible node, times out (PlaywrightTimeoutError),
or raises some other exception with a message.
-/

/-- Outcome of one element.wait_for attempt inside
wait_for_element_with_retry. -/
inductive LookupOutcome where
  | found (node : Nat)
  | timeout
  | err (msg : String)
deriving DecidableEq, Repr

/-- The attempt loop of wait_for_element_with_retry over the remaining
attempt indices.  Only PlaywrightTimeoutError is caught (scraper.py
line 46): a found node returns immediately, a timeout on the last
attempt returns none, and any other exception escapes to the caller. -/
def waitLoop (lookup : Nat → LookupOutcome) : List Nat → Except String (Option Nat)
  | [] => .ok none
  | a :: rest =>
    match lookup a with
    | .found n => .ok (some n)
    | .err m => .error m
    | .timeout => if rest.isEmpty then .ok none else waitLoop lookup rest

/-- wait_for_element_with_retry (scraper.py lines 28-53), with the page
behaviour abstracted as the per-attempt oracle `lookup`. -/
def wait_for_element_with_retry (lookup : Nat → LookupOutcome) (retries : Nat) : Except String (Option Nat) :=
  waitLoop lookup (List.range retries)

/-- The node returned by the first attempt that finds one, scanning
attempts in order. -/
def firstFound (lookup : Nat → LookupOutcome) (retries : Nat) : Option Nat :=
  (List.range retries).findSome? (fun a =>
    match lookup a with
    | .found n => some n
    | _ => none)

/-
Href normalization (scraper.py lines 116-127, 200-212, 251-256).
-/

/-- The site base url (scraper.py lines 67, 162). -/
def baseUrl : String := "https://www.weather-forecast.com"

/-- Python str.startswith, computed structurally over the characters so
that every use is kernel-evaluable. -/
def startsWithS (s p : String) : Bool :=
  p.data.isPrefixOf s.data

/-- The characters of a string before its first colon, or none when the
string has no colon. -/
def beforeColon : List Char → Option (List Char)
  | [] => none
  | c :: t => if c = ':' then some [] else (beforeColon t).map (c :: ·)

/-- True when the string begins with a URI scheme followed by a colon,
the way urllib.parse recognises one: a non-empty run of letters, digits
and plus, minus or dot characters, led by a letter, before the first
colon. -/
def hasUrlScheme (s : String) : Bool :=
  match beforeColon s.data with
  | none => false
  | some c =>
    (!c.isEmpty) &&
    c.all (fun ch => ch.isAlpha || ch.isDigit || ch = '+' || ch = '-' || ch = '.') &&
    (match c with
     | ch :: _ => ch.isAlpha
     | [] => false)

/-- The scheme of a base url of the shape scheme://host. -/
def schemeOf (base : String) : String :=
  String.mk ((beforeColon base.data).getD base.data)

/-- Models urllib.parse.urljoin restricted to the shapes this scraper
feeds it: the base is scheme://host with an empty path (the site root),
and the reference is any href.  A reference carrying its own scheme is
returned as is; a network-path reference keeps the base scheme; an
absolute-path, query or fragment reference is appended to the base; any
other relative path is merged against the empty base path. -/
def urljoin (base ref : String) : String :=
  if ref = "" then base
  else if hasUrlScheme ref then ref
  else if startsWithS ref "//" then schemeOf base ++ ":" ++ ref
  else if startsWithS ref "/" then base ++ ref
  else if startsWithS ref "?" || startsWithS ref "#" then base ++ ref
  else base ++ "/" ++ ref

/-- The url field computed from an anchor's href attribute
(scraper.py lines 116-122 and identically 200-207): a missing or empty
href is falsy and yields None, an href starting with the four characters
http passes through unchanged, anything else goes through urljoin
against the fixed site base. -/
def process_url (href : Option String) : Option String :=
  match href with
  | none => none
  | some h =>
    if h = "" then none
    else if startsWithS h "http" then some h
    else some (urljoin baseUrl h)

/-- The href rule as claim C8 words it: an absolute href (one carrying a
scheme) is recorded unchanged, a relative href is recorded as its
resolution against the site base, a missing href yields a null url. -/
def clm8HrefRule (href : Option String) : Option String :=
  match href with
  | none => none
  | some h => if hasUrlScheme h then some h else some (urljoin baseUrl h)

/-- What one list item contributes: the anchor's href attribute and its
inner text (scraper.py lines 112-113, 197-198). -/
structure AnchorData where
  href : Option String
  text : String
deriving DecidableEq, Repr

/-- The entry recorded for one anchor (scraper.py lines 113, 124-127):
stripped display text as the name, processed href as the url; the entry
is appended whether or not the href was present. -/
def extractEntry (a : AnchorData) : Entry :=
  ⟨a.text.trim, process_url a.href⟩

/-
Run orchestrator: scrape_countries_cities_main (scraper.py lines
454-697).
-/

/-- Outcome of one call into a crawl phase: the scraped list, or an
exception with its message text. -/
inductive ScrapeOutcome where
  | ok (data : List Entry)
  | err (msg : String)
deriving Repr

/-- Python substring containment (the in operator), computed
structurally over the characters. -/
def containsList (hay pat : List Char) : Bool :=
  match hay with
  | [] => pat.isEmpty
  | c :: t => pat.isPrefixOf (c :: t) || containsList t pat

/-- Python substring containment on strings. -/
def containsSub (hay pat : String) : Bool :=
  containsList hay.data pat.data

/-- str.lower, computed structurally over the characters. -/
def lowerStr (s : String) : String :=
  String.mk (s.data.map Char.toLower)

/-- True when the error text carries a session-loss signature
(scraper.py lines 639-640): the lowered message contains closed, crash
or detached. -/
def isSessionLossError (msg : String) : Bool :=
  let s := lowerStr msg
  containsSub s "closed" || containsSub s "crash" || containsSub s "detached"

/-- Result of the per-country attempt loop: how many browser restarts
its error handling performed, and the scraped list of the attempt that
succeeded (none when both attempts raised). -/
structure CountryAttemptRes where
  restarts : Nat
  result : Option (List Entry)
deriving Repr

/-- The retry loop at scraper.py lines 605-649 over the remaining
attempt indices: a successful scrape breaks out with its data; an
exception whose text matches the session-loss signature restarts the
browser before the next attempt, any other exception only consumes the
attempt. -/
def cityAttemptLoop (oc : Nat → ScrapeOutcome) : List Nat → Nat → CountryAttemptRes
  | [], restarts => ⟨restarts, none⟩
  | a :: rest, restarts =>
    match oc a with
    | .ok cities => ⟨restarts, some cities⟩
    | .err m =>
      let restarts' := if isSessionLossError m then restarts + 1 else restarts
      cityAttemptLoop oc rest restarts'

/-- max_retries at scraper.py line 605. -/
def maxRetriesPhase2 : Nat := 2

/-- One element of snapshot_data (scraper.py lines 565-570). -/
structure SnapCountry where
  country : String
  url : Option String
  cities : List Entry
deriving DecidableEq, Repr

/-- The first-match snapshot update at scraper.py lines 617-621. -/
def updateSnapshotFirst (name : String) (cities : List Entry) : List SnapCountry → List SnapCountry
  | [] => []
  | s :: ss =>
    if s.country == name then { s with cities := cities } :: ss
    else s :: updateSnapshotFirst name cities ss

/-- Python slice data[:n] for an int n (scraper.py line 578). -/
def pySlice (l : List Entry) (n : Int) : List Entry :=
  if 0 ≤ n then l.take n.toNat else l.take (l.length - n.natAbs)

/-- countries_to_process (scraper.py line 578): the slice is applied only
when limit is truthy, so both None and 0 leave the whole list. -/
def countriesToProcess (data : List Entry) (limit : Option Int) : List Entry :=
  match limit with
  | none => data
  | some n => if n ≠ 0 then pySlice data n else data

/-- Matches the glob pattern date* used to clear same-date snapshots
(scraper.py line 508): the filename starts with the date string. -/
def matchesDateGlob (date f : String) : Bool :=
  date.data.isPrefixOf f.data

/-- The unlink loop at scraper.py lines 508-511: every file of the
snapshot directory whose name matches date* is deleted. -/
def cleanupDateFiles (date : String) (fs : List String) : List String :=
  fs.filter (fun f => !(matchesDateGlob date f))

/-- snapshot_file_path's filename (scraper.py line 514). -/
def snapshotFileName (date : String) : String :=
  date ++ "_countries_cities.json"

/-- The external events and inputs of one run of
scrape_countries_cities_main.  cityOutcome gives, per phase-2 loop index
and per attempt, what scrape_cities_for_country does.  fatalAt injects
an uncaught top-level exception in the orchestration before loop
iteration k (standing for the unguarded raise points inside the outer
try, such as the browser relaunch at line 646 failing); none means no
such exception.  fs0 lists the snapshot directory before the run and
date is the run's current date string. -/
structure RunInput where
  scrapeFirst : ScrapeOutcome
  scrapeRetry : ScrapeOutcome
  cityOutcome : Nat → Nat → ScrapeOutcome
  fatalAt : Option Nat
  limit : Option Int
  dbStore : Bool
  enforceFK : Bool
  db0 : DB
  fs0 : List String
  date : String

/-- Phase-2 loop state: store, snapshot list, whether the incremental
write at lines 624-628 has created the run's snapshot file, browser
restarts so far, names scraped, names that exhausted both attempts. -/
structure LoopState where
  db : DB
  snapshot : List SnapCountry
  fileWritten : Bool
  restarts : Nat
  processed : List String
  failed : List String
deriving Repr

/-- One iteration of the phase-2 country loop (scraper.py lines
584-654): skip when db storage is on but the mapping holds no identity
for the name, skip when the country has no url; otherwise run the
attempt loop, and on success with a non-empty city list upsert (when
storage is on), update the snapshot entry and write the snapshot file. -/
def phase2Step (dbStore enforceFK : Bool) (mapping : List (String × Nat))
    (oc : Nat → ScrapeOutcome) (country : Entry) (st : LoopState) : LoopState :=
  let cid? := if dbStore then mapGet mapping country.name else none
  if dbStore && (cid?).isNone then st
  else if country.url = none then st
  else
    let res := cityAttemptLoop oc (List.range maxRetriesPhase2) 0
    let st := { st with processed := st.processed ++ [country.name],
                        restarts := st.restarts + res.restarts }
    match res.result with
    | some cities =>
      if cities.isEmpty then st
      else
        let db' :=
          match cid? with
          | some cid => if dbStore then (upsert_cities_to_db cities cid st.db enforceFK none).db else st.db
          | none => st.db
        { st with db := db',
                  snapshot := updateSnapshotFirst country.name cities st.snapshot,
                  fileWritten := true }
    | none => { st with failed := st.failed ++ [country.name] }

/-- The phase-2 loop with the fatal-exception injection point.  Returns
the state reached and whether an uncaught exception aborted the loop. -/
def phase2Loop (dbStore enforceFK : Bool) (fatalAt : Option Nat)
    (oc2 : Nat → Nat → ScrapeOutcome) (mapping : List (String × Nat)) :
    List Entry → Nat → LoopState → LoopState × Bool
  | [], _, st => (st, false)
  | c :: rest, idx, st =>
    if fatalAt = some idx then (st, true)
    else phase2Loop dbStore enforceFK fatalAt oc2 mapping rest (idx + 1)
           (phase2Step dbStore enforceFK mapping (oc2 idx) c st)

/-- Phase 1 with its restart policy (scraper.py lines 543-552): the
first scrape_countries call, on exception one browser restart and one
retry; the retry's exception escapes to the outer handler.  Returns the
scraped list and how many restarts phase 1 performed. -/
def phase1Result (inp : RunInput) : Option (List Entry × Nat) :=
  match inp.scrapeFirst with
  | .ok d => some (d, 0)
  | .err _ =>
    match inp.scrapeRetry with
    | .ok d => some (d, 1)
    | .err _ => none

/-- Observable outcome of one run: process exit code, snapshot directory
after exit, durable store, the batch upsert_countries_to_db was called
with (none when it was not called), snapshot_data as initialised after
phase 1, final snapshot_data, names scraped in phase 2, names that
exhausted their attempts, and total browser restarts. -/
structure RunResult where
  exitCode : Nat
  fs : List String
  db : DB
  upsertCalledWith : Option (List Entry)
  snapshotInit : List SnapCountry
  snapshot : List SnapCountry
  processed : List String
  failed : List String
  restarts : Nat
deriving DecidableEq, Repr

/-- The durable store after the phase-1 upsert (scraper.py lines
559-561): the batch upsert runs only when database storage is on. -/
def phase1DB (dbStore : Bool) (db0 : DB) (data : List Entry) : DB :=
  if dbStore then (upsert_countries_to_db data db0 none).db else db0

/-- country_name_to_id after phase 1 (scraper.py lines 559-561): empty
unless database storage is on. -/
def phase1Mapping (dbStore : Bool) (db0 : DB) (data : List Entry) : List (String × Nat) :=
  if dbStore then (upsert_countries_to_db data db0 none).mapping else []

/-- snapshot_data as initialised at scraper.py lines 564-570: one entry
per scraped country, cities still empty. -/
def snapInit (data : List Entry) : List SnapCountry :=
  data.map (fun c => ⟨c.name, c.url, []⟩)

/-- The run from the point where phase 1 returned `data` after `r0`
restarts (scraper.py lines 554-693): an empty list exits 1 immediately
(the finally block finds no file to delete); otherwise the full batch is
upserted when storage is on, snapshot_data gets an entry per scraped
country, the phase-2 loop runs over the limit-capped list, and the
finally block writes the snapshot file on success or deletes it when the
outer handler saw an uncaught exception and exited 1. -/
def mainAfterPhase1 (inp : RunInput) (data : List Entry) (r0 : Nat) : RunResult :=
  let fs1 := cleanupDateFiles inp.date inp.fs0
  let fname := snapshotFileName inp.date
  if data.isEmpty then
    { exitCode := 1, fs := fs1, db := inp.db0, upsertCalledWith := none,
      snapshotInit := [], snapshot := [], processed := [], failed := [], restarts := r0 }
  else
    let mapping := phase1Mapping inp.dbStore inp.db0 data
    let toProcess := countriesToProcess data inp.limit
    let st0 : LoopState := ⟨phase1DB inp.dbStore inp.db0 data, snapInit data, false, r0, [], []⟩
    let out := phase2Loop inp.dbStore inp.enforceFK inp.fatalAt inp.cityOutcome mapping toProcess 0 st0
    let stf := out.1
    if out.2 then
      { exitCode := 1, fs := fs1, db := stf.db,
        upsertCalledWith := if inp.dbStore then some data else none,
        snapshotInit := snapInit data, snapshot := stf.snapshot,
        processed := stf.processed, failed := stf.failed, restarts := stf.restarts }
    else
      { exitCode := 0, fs := fs1 ++ [fname], db := stf.db,
        upsertCalledWith := if inp.dbStore then some data else none,
        snapshotInit := snapInit data, snapshot := stf.snapshot,
        processed := stf.processed, failed := stf.failed, restarts := stf.restarts }

/-- scrape_countries_cities_main (scraper.py lines 454-693).  The
same-date snapshots are unlinked before anything else; when both
scrape_countries calls raise, the outer handler exits 1 and the finally
block leaves no snapshot file. -/
def scrape_countries_cities_main (inp : RunInput) : RunResult :=
  match phase1Result inp with
  | none =>
    { exitCode := 1, fs := cleanupDateFiles inp.date inp.fs0, db := inp.db0,
      upsertCalledWith := none, snapshotInit := [], snapshot := [],
      processed := [], failed := [], restarts := 1 }
  | some (data, r0) => mainAfterPhase1 inp data r0

/-
Helper predicates used by the proofs.
-/

/-- The countries table has a first match for the entry's name and its
url already equals the entry's url. -/
def settledC (rows : List Country) (e : Entry) : Prop :=
  ∃ r, findCountry rows e.name = some r ∧ r.url = e.url

/-- The combined committed-plus-pending city view has a first match for
the entry under the given country identity, with the entry's url. -/
def settledT (view : List City) (cid : Nat) (e : Entry) : Prop :=
  ∃ r, findCity view e.name cid = some r ∧ r.url = e.url

/-- Every pending insert that shares the entry's name also carries its
url (holds throughout a name-consistent batch). -/
def pendOk (pending : List City) (e : Entry) : Prop :=
  ∀ r ∈ pending, r.name = e.name → r.url = e.url

/-- No two entries of the batch share a name yet disagree on the url. -/
def nameConsistent (data : List Entry) : Prop :=
  ∀ e ∈ data, ∀ e' ∈ data, e.name = e'.name → e.url = e'.url

/-- The rows a later city query can reach after this session commits:
the queried rows followed by the pending inserts. -/
def viewT (st : CIState) : List City :=
  st.rows ++ st.pending

/-- Concrete run input shared shape for witnesses: one country with one
city, data stored to the database, no faults. -/
def witnessInput : RunInput :=
  { scrapeFirst := .ok [⟨"Pakistan", some "https://www.weather-forecast.com/countries/Pakistan"⟩,
                        ⟨"India", some "https://www.weather-forecast.com/countries/India"⟩],
    scrapeRetry := .ok [],
    cityOutcome := fun _ _ => .ok [⟨"Karachi", some "https://www.weather-forecast.com/locations/Karachi"⟩],
    fatalAt := none, limit := none, dbStore := true, enforceFK := false,
    db0 := ⟨[], [], 1⟩,
    fs0 := ["2026-10-12_countries_cities.json", "notes.txt"],
    date := "2026-10-12" }

/-- Witness input for the snapshot-atomicity claim: an uncaught
orchestration exception injected before the second loop iteration. -/
def c2Input : RunInput := { witnessInput with fatalAt := some 1 }

/-- Witness input for the phase-1 policy claim: both country-phase
attempts raise. -/
def c4Input : RunInput :=
  { witnessInput with scrapeFirst := .err "net down", scrapeRetry := .err "still down" }

/-- Witness input for the same-date cleanup claim: the run fails while a
previously committed same-date snapshot sits in the directory. -/
def c10Input : RunInput :=
  { witnessInput with scrapeFirst := .err "boom", scrapeRetry := .err "boom again" }

/-
Theorems.
-/

theorem runCountryUpsert_nil (st : CUState) : runCountryUpsert [] st = st := rfl

theorem runCountryUpsert_cons (a : Entry) (t : List Entry) (st : CUState) :
    runCountryUpsert (a :: t) st = runCountryUpsert t (countryStep st a) := rfl

theorem runCityUpsert_cons (cid : Nat) (a : Entry) (t : List Entry) (st : CIState) :
    runCityUpsert cid (a :: t) st = runCityUpsert cid t (cityStep cid st a) := rfl

theorem findCountry_updateFirst_ne (rows : List Country) (m n : String) (u : Option String)
    (h : n ≠ m) :
    findCountry (updateFirstCountry rows m u) n = findCountry rows n := by
  induction rows with
  | nil => rfl
  | cons r rs ih =>
    by_cases hm : r.name = m
    · have hn : (r.name == n) = false :=
        beq_eq_false_iff_ne.mpr (fun hc => h (hc ▸ hm))
      simp [updateFirstCountry, findCountry, hm, hn, List.find?_cons,
        beq_eq_false_iff_ne.mpr (fun hc => h hc.symm)]
    · by_cases hn : r.name = n
      · simp [updateFirstCountry, findCountry, hm, hn, List.find?_cons, h]
      · simpa [updateFirstCountry, findCountry, hm, hn, List.find?_cons] using ih

theorem findCountry_updateFirst_self (rows : List Country) (n : String) (u : Option String)
    (r : Country) (h : findCountry rows n = some r) :
    findCountry (updateFirstCountry rows n u) n = some { r with url := u } := by
  induction rows with
  | nil => simp [findCountry] at h
  | cons r₀ rs ih =>
    by_cases hn : r₀.name = n
    · have : r₀ = r := by
        simpa [findCountry, List.find?_cons, hn] using h
      subst this
      simp [updateFirstCountry, findCountry, hn, List.find?_cons]
    · have h' : findCountry rs n = some r := by
        simpa [findCountry, List.find?_cons, hn] using h
      simpa [updateFirstCountry, findCountry, hn, List.find?_cons] using ih h'

theorem findCountry_append_isSome (rows l : List Country) (n : String)
    (h : (findCountry rows n).isSome) :
    findCountry (rows ++ l) n = findCountry rows n := by
  cases hf : findCountry rows n with
  | none => rw [hf] at h; simp at h
  | some r =>
    unfold findCountry at hf ⊢
    simp [List.find?_append, hf]

theorem findCountry_append_none (rows l : List Country) (n : String)
    (h : findCountry rows n = none) :
    findCountry (rows ++ l) n = findCountry l n := by
  unfold findCountry at h ⊢
  simp [List.find?_append, h]

theorem settledC_step_self (st : CUState) (e : Entry) (hIs : e.name ≠ "Israel") :
    settledC (countryStep st e).rows e := by
  unfold countryStep
  rw [if_neg (by simpa using hIs)]
  cases hf : findCountry st.rows e.name with
  | some r =>
    simp only [hf]
    by_cases hu : r.url = e.url
    · rw [if_neg (by simp [hu])]
      exact ⟨r, hf, hu⟩
    · rw [if_pos hu]
      exact ⟨{ r with url := e.url }, findCountry_updateFirst_self st.rows e.name e.url r hf, rfl⟩
  | none =>
    simp only [hf]
    refine ⟨⟨st.nid, e.name, e.url⟩, ?_, rfl⟩
    show findCountry (st.rows ++ [⟨st.nid, e.name, e.url⟩]) e.name = some ⟨st.nid, e.name, e.url⟩
    rw [findCountry_append_none st.rows _ _ hf]
    simp [findCountry, List.find?_cons]

theorem settledC_step_pres (st : CUState) (e' e : Entry)
    (hs : settledC st.rows e) (hc : e'.name = e.name → e'.url = e.url) :
    settledC (countryStep st e').rows e := by
  obtain ⟨r, hr, hu⟩ := hs
  unfold countryStep
  by_cases hIs : e'.name = "Israel"
  · rw [if_pos (by simpa using hIs)]
    exact ⟨r, hr, hu⟩
  · rw [if_neg (by simpa using hIs)]
    cases hf : findCountry st.rows e'.name with
    | some r' =>
      simp only [hf]
      by_cases hu' : r'.url = e'.url
      · rw [if_neg (by simp [hu'])]
        exact ⟨r, hr, hu⟩
      · have hne : e.name ≠ e'.name := by
          intro hnm
          rw [hnm] at hr
          have : r' = r := Option.some.inj (hf.symm.trans hr)
          rw [this] at hu'
          exact hu' (hu.trans (hc hnm.symm).symm)
        rw [if_pos hu']
        refine ⟨r, ?_, hu⟩
        show findCountry (updateFirstCountry st.rows e'.name e'.url) e.name = some r
        rw [findCountry_updateFirst_ne st.rows e'.name e.name e'.url hne]
        exact hr
    | none =>
      simp only [hf]
      refine ⟨r, ?_, hu⟩
      show findCountry (st.rows ++ [⟨st.nid, e'.name, e'.url⟩]) e.name = some r
      rw [findCountry_append_isSome st.rows _ _ (by simp [hr])]
      exact hr

theorem settledC_run_pres (data : List Entry) :
    ∀ (st : CUState) (e : Entry), settledC st.rows e →
    (∀ e' ∈ data, e'.name = e.name → e'.url = e.url) →
    settledC (runCountryUpsert data st).rows e := by
  induction data with
  | nil => intro st e hs _; exact hs
  | cons a t ih =>
    intro st e hs hc
    rw [runCountryUpsert_cons]
    exact ih _ e (settledC_step_pres st a e hs (hc a (List.mem_cons_self a t)))
      (fun e' he' => hc e' (List.mem_cons_of_mem a he'))

theorem settledC_run_estab (data : List Entry) :
    ∀ (st : CUState) (e : Entry), e ∈ data → e.name ≠ "Israel" →
    (∀ e' ∈ data, e'.name = e.name → e'.url = e.url) →
    settledC (runCountryUpsert data st).rows e := by
  induction data with
  | nil => intro st e he; exact absurd he (List.not_mem_nil e)
  | cons a t ih =>
    intro st e he hIs hc
    rw [runCountryUpsert_cons]
    rcases List.mem_cons.mp he with rfl | ht
    · exact settledC_run_pres t _ e (settledC_step_self st e hIs)
        (fun e' he' => hc e' (List.mem_cons_of_mem e he'))
    · exact ih _ e ht hIs (fun e' he' => hc e' (List.mem_cons_of_mem a he'))

theorem countryStep_noop (st : CUState) (a : Entry)
    (h : a.name ≠ "Israel" → settledC st.rows a) :
    (countryStep st a).rows = st.rows
    ∧ (countryStep st a).inserted = st.inserted
    ∧ (countryStep st a).updated = st.updated
    ∧ (countryStep st a).nid = st.nid := by
  unfold countryStep
  by_cases hIs : a.name = "Israel"
  · simp [hIs]
  · obtain ⟨r, hr, hu⟩ := h hIs
    simp only [beq_iff_eq, if_neg hIs, hr]
    have : (if r.url ≠ a.url then
        { st with rows := updateFirstCountry st.rows a.name a.url, updated := st.updated + 1 }
      else st) = st := by simp [hu]
    rw [this]
    exact ⟨rfl, rfl, rfl, rfl⟩

theorem runCountryUpsert_noop (data : List Entry) :
    ∀ (st : CUState), (∀ e ∈ data, e.name ≠ "Israel" → settledC st.rows e) →
    (runCountryUpsert data st).rows = st.rows
    ∧ (runCountryUpsert data st).inserted = st.inserted
    ∧ (runCountryUpsert data st).updated = st.updated
    ∧ (runCountryUpsert data st).nid = st.nid := by
  induction data with
  | nil => intro st _; exact ⟨rfl, rfl, rfl, rfl⟩
  | cons a t ih =>
    intro st h
    rw [runCountryUpsert_cons]
    obtain ⟨hrw, hin, hup, hni⟩ := countryStep_noop st a (h a (List.mem_cons_self a t))
    have ht : ∀ e ∈ t, e.name ≠ "Israel" → settledC (countryStep st a).rows e := by
      intro e he hIs
      rw [hrw]
      exact h e (List.mem_cons_of_mem a he) hIs
    obtain ⟨h1, h2, h3, h4⟩ := ih (countryStep st a) ht
    exact ⟨h1.trans hrw, h2.trans hin, h3.trans hup, h4.trans hni⟩

theorem findCity_updateFirst_ne (rows : List City) (m n : String) (cid : Nat)
    (u : Option String) (h : n ≠ m) :
    findCity (updateFirstCity rows m cid u) n cid = findCity rows n cid := by
  induction rows with
  | nil => rfl
  | cons r rs ih =>
    by_cases hm : (r.name == m && r.country_id == cid) = true
    · obtain ⟨h1, h2⟩ : r.name = m ∧ r.country_id = cid := by simpa using hm
      have hmn : (m == n) = false := beq_eq_false_iff_ne.mpr (fun hc => h hc.symm)
      simp [updateFirstCity, findCity, List.find?_cons, hm, h1, h2, hmn]
    · by_cases hq : (r.name == n && r.country_id == cid) = true
      · simp [updateFirstCity, findCity, List.find?_cons, hm, hq]
      · simpa [updateFirstCity, findCity, List.find?_cons, hm, hq] using ih

theorem findCity_updateFirst_self (rows : List City) (n : String) (cid : Nat)
    (u : Option String) (r : City) (h : findCity rows n cid = some r) :
    findCity (updateFirstCity rows n cid u) n cid = some { r with url := u } := by
  induction rows with
  | nil => simp [findCity] at h
  | cons r₀ rs ih =>
    by_cases hq : (r₀.name == n && r₀.country_id == cid) = true
    · have : r₀ = r := by
        simpa [findCity, List.find?_cons, hq] using h
      subst this
      simp [updateFirstCity, findCity, List.find?_cons, hq]
    · have h' : findCity rs n cid = some r := by
        simpa [findCity, List.find?_cons, hq] using h
      simpa [updateFirstCity, findCity, List.find?_cons, hq] using ih h'

theorem findCity_append_isSome (rows l : List City) (n : String) (cid : Nat)
    (h : (findCity rows n cid).isSome) :
    findCity (rows ++ l) n cid = findCity rows n cid := by
  cases hf : findCity rows n cid with
  | none => rw [hf] at h; simp at h
  | some r =>
    unfold findCity at hf ⊢
    simp [List.find?_append, hf]

theorem findCity_append_none (rows l : List City) (n : String) (cid : Nat)
    (h : findCity rows n cid = none) :
    findCity (rows ++ l) n cid = findCity l n cid := by
  unfold findCity at h ⊢
  simp [List.find?_append, h]

theorem pendOk_step (cid : Nat) (st : CIState) (e' e : Entry)
    (hc : e'.name = e.name → e'.url = e.url) (hp : pendOk st.pending e) :
    pendOk (cityStep cid st e').pending e := by
  unfold cityStep
  cases hf : findCity st.rows e'.name cid with
  | some r =>
    simp only [hf]
    by_cases hu : r.url = e'.url
    · rw [if_neg (by simp [hu])]; exact hp
    · rw [if_pos hu]; exact hp
  | none =>
    simp only [hf]
    intro r hr hname
    rcases List.mem_append.mp hr with hold | hnew
    · exact hp r hold hname
    · have : r = ⟨st.nid, e'.name, e'.url, cid⟩ := by simpa using hnew
      subst this
      exact hc hname

theorem settledT_step_self (cid : Nat) (st : CIState) (e : Entry)
    (hp : pendOk st.pending e) :
    settledT (viewT (cityStep cid st e)) cid e := by
  unfold cityStep
  cases hf : findCity st.rows e.name cid with
  | some r =>
    simp only [hf]
    by_cases hu : r.url = e.url
    · rw [if_neg (by simp [hu])]
      refine ⟨r, ?_, hu⟩
      show findCity (st.rows ++ st.pending) e.name cid = some r
      rw [findCity_append_isSome st.rows st.pending _ _ (by simp [hf])]
      exact hf
    · rw [if_pos hu]
      refine ⟨{ r with url := e.url }, ?_, rfl⟩
      show findCity (updateFirstCity st.rows e.name cid e.url ++ st.pending) e.name cid
        = some { r with url := e.url }
      have hupd := findCity_updateFirst_self st.rows e.name cid e.url r hf
      rw [findCity_append_isSome _ st.pending _ _ (by simp [hupd])]
      exact hupd
  | none =>
    simp only [hf]
    show settledT (st.rows ++ (st.pending ++ [⟨st.nid, e.name, e.url, cid⟩])) cid e
    rw [← List.append_assoc]
    cases hv : findCity (st.rows ++ st.pending) e.name cid with
    | some r0 =>
      have hr0p : findCity st.pending e.name cid = some r0 := by
        rw [findCity_append_none st.rows st.pending _ _ hf] at hv
        exact hv
      have hmem : r0 ∈ st.pending :=
        List.mem_of_find?_eq_some
          (show List.find? (fun r => r.name == e.name && r.country_id == cid) st.pending
              = some r0 from hr0p)
      have hpred := List.find?_some
          (show List.find? (fun r => r.name == e.name && r.country_id == cid) st.pending
              = some r0 from hr0p)
      have hname : r0.name = e.name := by
        simp only [Bool.and_eq_true, beq_iff_eq] at hpred
        exact hpred.1
      refine ⟨r0, ?_, hp r0 hmem hname⟩
      rw [findCity_append_isSome _ _ _ _ (by simp [hv])]
      exact hv
    | none =>
      refine ⟨⟨st.nid, e.name, e.url, cid⟩, ?_, rfl⟩
      rw [findCity_append_none _ _ _ _ hv]
      simp [findCity, List.find?_cons]

theorem settledT_step_pres (cid : Nat) (st : CIState) (e' e : Entry)
    (hs : settledT (viewT st) cid e) (hc : e'.name = e.name → e'.url = e.url) :
    settledT (viewT (cityStep cid st e')) cid e := by
  obtain ⟨r, hr, hu⟩ := hs
  unfold cityStep
  cases hf : findCity st.rows e'.name cid with
  | some r' =>
    simp only [hf]
    by_cases hu' : r'.url = e'.url
    · rw [if_neg (by simp [hu'])]
      exact ⟨r, hr, hu⟩
    · have hne : e.name ≠ e'.name := by
        intro hnm
        have hfr : findCity (st.rows ++ st.pending) e.name cid = some r' := by
          rw [hnm]
          rw [findCity_append_isSome st.rows st.pending _ _ (by simp [hf])]
          exact hf
        have : r' = r := Option.some.inj (hfr.symm.trans hr)
        rw [this] at hu'
        exact hu' (hu.trans (hc hnm.symm).symm)
      rw [if_pos hu']
      refine ⟨r, ?_, hu⟩
      show findCity (updateFirstCity st.rows e'.name cid e'.url ++ st.pending) e.name cid = some r
      have hcomp : findCity (updateFirstCity st.rows e'.name cid e'.url) e.name cid
          = findCity st.rows e.name cid :=
        findCity_updateFirst_ne st.rows e'.name e.name cid e'.url hne
      unfold viewT at hr
      unfold findCity at hcomp hr ⊢
      rw [List.find?_append] at hr ⊢
      rw [hcomp]
      exact hr
  | none =>
    simp only [hf]
    unfold viewT at hr
    show settledT (st.rows ++ (st.pending ++ [⟨st.nid, e'.name, e'.url, cid⟩])) cid e
    rw [← List.append_assoc]
    refine ⟨r, ?_, hu⟩
    rw [findCity_append_isSome _ _ _ _ (by simp [hr])]
    exact hr

theorem settledT_run_pres (cid : Nat) (data : List Entry) :
    ∀ (st : CIState) (e : Entry), settledT (viewT st) cid e →
    (∀ e' ∈ data, e'.name = e.name → e'.url = e.url) →
    settledT (viewT (runCityUpsert cid data st)) cid e := by
  induction data with
  | nil => intro st e hs _; exact hs
  | cons a t ih =>
    intro st e hs hc
    rw [runCityUpsert_cons]
    exact ih _ e (settledT_step_pres cid st a e hs (hc a (List.mem_cons_self a t)))
      (fun e' he' => hc e' (List.mem_cons_of_mem a he'))

theorem settledT_run_estab (cid : Nat) (data : List Entry) :
    ∀ (st : CIState) (e : Entry), e ∈ data → pendOk st.pending e →
    (∀ e' ∈ data, e'.name = e.name → e'.url = e.url) →
    settledT (viewT (runCityUpsert cid data st)) cid e := by
  induction data with
  | nil => intro st e he; exact absurd he (List.not_mem_nil e)
  | cons a t ih =>
    intro st e he hp hc
    rw [runCityUpsert_cons]
    rcases List.mem_cons.mp he with rfl | ht
    · exact settledT_run_pres cid t _ e (settledT_step_self cid st e hp)
        (fun e' he' => hc e' (List.mem_cons_of_mem e he'))
    · exact ih _ e ht (pendOk_step cid st a e (hc a (List.mem_cons_self a t)) hp)
        (fun e' he' => hc e' (List.mem_cons_of_mem a he'))

theorem cityStep_noop (cid : Nat) (st : CIState) (a : Entry)
    (h : ∃ r, findCity st.rows a.name cid = some r ∧ r.url = a.url) :
    (cityStep cid st a).rows = st.rows
    ∧ (cityStep cid st a).pending = st.pending
    ∧ (cityStep cid st a).inserted = st.inserted
    ∧ (cityStep cid st a).updated = st.updated
    ∧ (cityStep cid st a).nid = st.nid := by
  obtain ⟨r, hr, hu⟩ := h
  unfold cityStep
  simp only [hr]
  rw [if_neg (by simp [hu])]
  exact ⟨rfl, rfl, rfl, rfl, rfl⟩

theorem runCityUpsert_noop (cid : Nat) (data : List Entry) :
    ∀ (st : CIState),
    (∀ e ∈ data, ∃ r, findCity st.rows e.name cid = some r ∧ r.url = e.url) →
    (runCityUpsert cid data st).rows = st.rows
    ∧ (runCityUpsert cid data st).pending = st.pending
    ∧ (runCityUpsert cid data st).inserted = st.inserted
    ∧ (runCityUpsert cid data st).updated = st.updated
    ∧ (runCityUpsert cid data st).nid = st.nid := by
  induction data with
  | nil => intro st _; exact ⟨rfl, rfl, rfl, rfl, rfl⟩
  | cons a t ih =>
    intro st h
    rw [runCityUpsert_cons]
    obtain ⟨hrw, hpd, hin, hup, hni⟩ := cityStep_noop cid st a (h a (List.mem_cons_self a t))
    have ht : ∀ e ∈ t, ∃ r, findCity (cityStep cid st a).rows e.name cid = some r ∧ r.url = e.url := by
      intro e he
      rw [hrw]
      exact h e (List.mem_cons_of_mem a he)
    obtain ⟨h1, h2, h3, h4, h5⟩ := ih (cityStep cid st a) ht
    exact ⟨h1.trans hrw, h2.trans hpd, h3.trans hin, h4.trans hup, h5.trans hni⟩

/-- C1 (amended): the upserts are idempotent for every batch in which
entries sharing a name agree on the url (in particular for any batch
without duplicate names): the second identical run inserts nothing,
updates nothing and leaves the store exactly as the first run left it —
for countries from any starting store, and for cities under a fixed
country identity on the default engine.  The hypothesis is necessary:
when one name arrives with two different urls the second run performs
updates again (see the counterexample), because each occurrence flips
the stored url back. -/
theorem c1_upsert_idempotent (data : List Entry) (db : DB) (cid : Nat)
    (hcons : nameConsistent data) :
    ((upsert_countries_to_db data (upsert_countries_to_db data db none).db none).inserted = 0
    ∧ (upsert_countries_to_db data (upsert_countries_to_db data db none).db none).updated = 0
    ∧ (upsert_countries_to_db data (upsert_countries_to_db data db none).db none).db
        = (upsert_countries_to_db data db none).db)
    ∧ ((upsert_cities_to_db data cid (upsert_cities_to_db data cid db false none).db false none).inserted = 0
    ∧ (upsert_cities_to_db data cid (upsert_cities_to_db data cid db false none).db false none).updated = 0
    ∧ (upsert_cities_to_db data cid (upsert_cities_to_db data cid db false none).db false none).db
        = (upsert_cities_to_db data cid db false none).db) := by
  constructor
  · have hset : ∀ e ∈ data, e.name ≠ "Israel" →
        settledC (runCountryUpsert data ⟨db.countries, [], 0, 0, db.nextId⟩).rows e := by
      intro e he hIs
      exact settledC_run_estab data ⟨db.countries, [], 0, 0, db.nextId⟩ e he hIs
        (fun e' he' => hcons e' he' e he)
    obtain ⟨h1, h2, h3, h4⟩ :=
      runCountryUpsert_noop data
        ⟨(runCountryUpsert data ⟨db.countries, [], 0, 0, db.nextId⟩).rows, [], 0, 0,
         (runCountryUpsert data ⟨db.countries, [], 0, 0, db.nextId⟩).nid⟩
        (fun e he hIs => hset e he hIs)
    refine ⟨h2, h3, ?_⟩
    show DB.mk
        (runCountryUpsert data
          ⟨(runCountryUpsert data ⟨db.countries, [], 0, 0, db.nextId⟩).rows, [], 0, 0,
           (runCountryUpsert data ⟨db.countries, [], 0, 0, db.nextId⟩).nid⟩).rows
        db.cities
        (runCountryUpsert data
          ⟨(runCountryUpsert data ⟨db.countries, [], 0, 0, db.nextId⟩).rows, [], 0, 0,
           (runCountryUpsert data ⟨db.countries, [], 0, 0, db.nextId⟩).nid⟩).nid
      = DB.mk (runCountryUpsert data ⟨db.countries, [], 0, 0, db.nextId⟩).rows db.cities
          (runCountryUpsert data ⟨db.countries, [], 0, 0, db.nextId⟩).nid
    rw [h1, h4]
  · have hset : ∀ e ∈ data,
        settledT (viewT (runCityUpsert cid data ⟨db.cities, [], 0, 0, 0, db.nextId⟩)) cid e := by
      intro e he
      exact settledT_run_estab cid data ⟨db.cities, [], 0, 0, 0, db.nextId⟩ e he
        (fun r hr => absurd hr (List.not_mem_nil r))
        (fun e' he' => hcons e' he' e he)
    obtain ⟨h1, h2, h3, h4, h5⟩ :=
      runCityUpsert_noop cid data
        ⟨viewT (runCityUpsert cid data ⟨db.cities, [], 0, 0, 0, db.nextId⟩), [], 0, 0, 0,
         (runCityUpsert cid data ⟨db.cities, [], 0, 0, 0, db.nextId⟩).nid⟩
        (fun e he => hset e he)
    refine ⟨h3, h4, ?_⟩
    show DB.mk db.countries
        ((runCityUpsert cid data
            ⟨viewT (runCityUpsert cid data ⟨db.cities, [], 0, 0, 0, db.nextId⟩), [], 0, 0, 0,
             (runCityUpsert cid data ⟨db.cities, [], 0, 0, 0, db.nextId⟩).nid⟩).rows
          ++ (runCityUpsert cid data
            ⟨viewT (runCityUpsert cid data ⟨db.cities, [], 0, 0, 0, db.nextId⟩), [], 0, 0, 0,
             (runCityUpsert cid data ⟨db.cities, [], 0, 0, 0, db.nextId⟩).nid⟩).pending)
        (runCityUpsert cid data
            ⟨viewT (runCityUpsert cid data ⟨db.cities, [], 0, 0, 0, db.nextId⟩), [], 0, 0, 0,
             (runCityUpsert cid data ⟨db.cities, [], 0, 0, 0, db.nextId⟩).nid⟩).nid
      = DB.mk db.countries (viewT (runCityUpsert cid data ⟨db.cities, [], 0, 0, 0, db.nextId⟩))
          (runCityUpsert cid data ⟨db.cities, [], 0, 0, 0, db.nextId⟩).nid
    rw [h1, h2, h5]
    simp

/-- Witness for C1: the spec's own two-country fixture upserted twice,
plus a two-city batch under country identity 1. -/
theorem c1_upsert_idempotent_witness :
    nameConsistent [⟨"Pakistan", some "p"⟩, ⟨"India", some "i"⟩]
    ∧ (((upsert_countries_to_db [⟨"Pakistan", some "p"⟩, ⟨"India", some "i"⟩]
          (upsert_countries_to_db [⟨"Pakistan", some "p"⟩, ⟨"India", some "i"⟩] ⟨[], [], 1⟩ none).db
          none).inserted = 0
    ∧ (upsert_countries_to_db [⟨"Pakistan", some "p"⟩, ⟨"India", some "i"⟩]
          (upsert_countries_to_db [⟨"Pakistan", some "p"⟩, ⟨"India", some "i"⟩] ⟨[], [], 1⟩ none).db
          none).updated = 0
    ∧ (upsert_countries_to_db [⟨"Pakistan", some "p"⟩, ⟨"India", some "i"⟩]
          (upsert_countries_to_db [⟨"Pakistan", some "p"⟩, ⟨"India", some "i"⟩] ⟨[], [], 1⟩ none).db
          none).db
        = (upsert_countries_to_db [⟨"Pakistan", some "p"⟩, ⟨"India", some "i"⟩] ⟨[], [], 1⟩ none).db)
    ∧ ((upsert_cities_to_db [⟨"Pakistan", some "p"⟩, ⟨"India", some "i"⟩] 1
          (upsert_cities_to_db [⟨"Pakistan", some "p"⟩, ⟨"India", some "i"⟩] 1 ⟨[], [], 1⟩ false none).db
          false none).inserted = 0
    ∧ (upsert_cities_to_db [⟨"Pakistan", some "p"⟩, ⟨"India", some "i"⟩] 1
          (upsert_cities_to_db [⟨"Pakistan", some "p"⟩, ⟨"India", some "i"⟩] 1 ⟨[], [], 1⟩ false none).db
          false none).updated = 0
    ∧ (upsert_cities_to_db [⟨"Pakistan", some "p"⟩, ⟨"India", some "i"⟩] 1
          (upsert_cities_to_db [⟨"Pakistan", some "p"⟩, ⟨"India", some "i"⟩] 1 ⟨[], [], 1⟩ false none).db
          false none).db
        = (upsert_cities_to_db [⟨"Pakistan", some "p"⟩, ⟨"India", some "i"⟩] 1 ⟨[], [], 1⟩ false none).db)) := by
  refine ⟨?_, ?_⟩
  · intro e he e' he' hn
    fin_cases he <;> fin_cases he' <;> simp_all
  · exact c1_upsert_idempotent [⟨"Pakistan", some "p"⟩, ⟨"India", some "i"⟩] ⟨[], [], 1⟩ 1
      (by intro e he e' he' hn; fin_cases he <;> fin_cases he' <;> simp_all)

/-- Counterexample for C1 as stated: the scraped batch may repeat a name
with two different urls (the crawls deduplicate nothing), and then the
second identical run is not idempotent — it performs two url updates
again, where the claim demands zero inserted and zero updated. -/
theorem c1_idempotence_counterexample :
    ¬ ((upsert_countries_to_db [⟨"A", some "u1"⟩, ⟨"A", some "u2"⟩]
          (upsert_countries_to_db [⟨"A", some "u1"⟩, ⟨"A", some "u2"⟩] ⟨[], [], 1⟩ none).db
          none).inserted = 0
       ∧ (upsert_countries_to_db [⟨"A", some "u1"⟩, ⟨"A", some "u2"⟩]
          (upsert_countries_to_db [⟨"A", some "u1"⟩, ⟨"A", some "u2"⟩] ⟨[], [], 1⟩ none).db
          none).updated = 0) := by
  decide

/-- The attempt loop returns the first found node (scanning the pending
attempts in order) whenever no attempt raises a non-timeout error. -/
theorem waitLoop_no_err (lookup : Nat → LookupOutcome) :
    ∀ l : List Nat, (∀ a ∈ l, ∀ m, lookup a ≠ .err m) →
    waitLoop lookup l = .ok (l.findSome? (fun a =>
      match lookup a with
      | .found n => some n
      | _ => none)) := by
  intro l
  induction l with
  | nil => intro _; rfl
  | cons a rest ih =>
    intro h
    have ha : ∀ m, lookup a ≠ .err m := h a (List.mem_cons_self a rest)
    cases hl : lookup a with
    | found n =>
      simp [waitLoop, hl, List.findSome?_cons]
    | err m => exact absurd hl (ha m)
    | timeout =>
      have hrest : ∀ b ∈ rest, ∀ m, lookup b ≠ .err m :=
        fun b hb => h b (List.mem_cons_of_mem a hb)
      cases rest with
      | nil => simp [waitLoop, hl, List.findSome?_cons]
      | cons b bs =>
        have hstep : waitLoop lookup (a :: b :: bs) = waitLoop lookup (b :: bs) := by
          simp [waitLoop, hl]
        rw [hstep, ih hrest]
        simp [List.findSome?_cons, hl]

/-- C7 (amended): wait_for_element_with_retry returns, without raising,
the node of the first attempt that finds one (or the not-found signal
none once all attempts are exhausted) provided every underlying page
lookup either succeeds or times out.  A lookup that raises anything
other than the timeout error escapes to the caller, as the
counterexample shows: only PlaywrightTimeoutError is caught. -/
theorem c7_locator_totality (lookup : Nat → LookupOutcome) (retries : Nat)
    (h : ∀ a ∈ List.range retries, ∀ m, lookup a ≠ .err m) :
    wait_for_element_with_retry lookup retries = .ok (firstFound lookup retries) := by
  unfold wait_for_element_with_retry firstFound
  exact waitLoop_no_err lookup (List.range retries) h

/-- Witness for C7: a lookup that times out once and then finds node 7
yields ok with that node. -/
theorem c7_locator_totality_witness :
    wait_for_element_with_retry (fun a => if a = 1 then .found 7 else .timeout) 3
      = .ok (firstFound (fun a => if a = 1 then .found 7 else .timeout) 3)
    ∧ firstFound (fun a => if a = 1 then .found 7 else .timeout) 3 = some 7 := by
  constructor
  · exact c7_locator_totality (fun a => if a = 1 then .found 7 else .timeout) 3
      (by intro a _ m h; by_cases h1 : a = 1 <;> simp [h1] at h)
  · rfl

/-- Counterexample for C7 as stated: when the underlying lookup raises a
non-timeout error (here the browser-closed error), the function does not
return the not-found signal — the exception propagates to the caller. -/
theorem c7_locator_counterexample :
    wait_for_element_with_retry (fun _ => .err "page closed") 5 = .error "page closed" := by
  rfl

/-- C8 (amended): an href beginning with the four characters http is
recorded unchanged (even a relative one, as the counterexample shows);
any other non-empty href is recorded as its urljoin resolution against
the fixed site base; an empty or missing href yields a null url while
the entry is still recorded under its stripped display text; and the
spec's concrete resolution example holds. -/
theorem c8_href_normalization :
    (∀ h : String, startsWithS h "http" = true → process_url (some h) = some h)
    ∧ (∀ h : String, startsWithS h "http" = false → h ≠ "" →
        process_url (some h) = some (urljoin baseUrl h))
    ∧ process_url none = none
    ∧ process_url (some "") = none
    ∧ urljoin "https://example.com" "/x/y" = "https://example.com/x/y"
    ∧ (∀ t : String, extractEntry ⟨none, t⟩ = ⟨t.trim, none⟩) := by
  refine ⟨?_, ?_, rfl, by decide, by decide, fun t => rfl⟩
  · intro h hh
    have h0 : ¬ h = "" := by
      intro he
      rw [he] at hh
      exact absurd hh (by decide)
    simp [process_url, h0, hh]
  · intro h hh hne
    simp [process_url, hne, hh]

/-- Witness for C8: the spec's own example, run through the code's url
processing at the scraper's base. -/
theorem c8_href_normalization_witness :
    (startsWithS "/x/y" "http" = false) ∧ ("/x/y" ≠ "")
    ∧ process_url (some "/x/y") = some "https://www.weather-forecast.com/x/y" := by
  refine ⟨by decide, by decide, ?_⟩
  exact (c8_href_normalization.2.1 "/x/y" (by decide) (by decide)).trans (by decide)

/-- Counterexample for C8 as stated: the href httpx/y is relative (it
carries no scheme), so the claim requires it to be resolved against the
base, but the code's startswith http test records it unchanged. -/
theorem c8_href_counterexample :
    hasUrlScheme "httpx/y" = false
    ∧ process_url (some "httpx/y") = some "httpx/y"
    ∧ clm8HrefRule (some "httpx/y") = some "https://www.weather-forecast.com/httpx/y"
    ∧ process_url (some "httpx/y") ≠ clm8HrefRule (some "httpx/y") := by
  exact ⟨by decide, by decide, by decide, by decide⟩

theorem isPrefixOf_append_self : ∀ (l₁ l₂ : List Char), l₁.isPrefixOf (l₁ ++ l₂) = true := by
  intro l₁ l₂
  induction l₁ with
  | nil => cases l₂ <;> rfl
  | cons a t ih => simp [List.isPrefixOf, ih]

theorem fname_matches_glob (date : String) :
    matchesDateGlob date (snapshotFileName date) = true := by
  unfold matchesDateGlob snapshotFileName
  rw [String.data_append]
  exact isPrefixOf_append_self date.data _

theorem not_mem_cleanup (date f : String) (fs : List String)
    (hm : matchesDateGlob date f = true) : f ∉ cleanupDateFiles date fs := by
  intro hf
  have h := (List.mem_filter.mp hf).2
  rw [hm] at h
  simp at h

theorem all_filter_self (l : List String) (p : String → Bool) :
    (l.filter p).all p = true := by
  rw [List.all_eq_true]
  intro x hx
  exact (List.mem_filter.mp hx).2

/-- The snapshot directory after a run: the same-date files are gone,
and the run's own file is present exactly when the run exited 0. -/
theorem main_fs_spec (inp : RunInput) :
    (scrape_countries_cities_main inp).fs
      = cleanupDateFiles inp.date inp.fs0
        ++ (if (scrape_countries_cities_main inp).exitCode = 0
            then [snapshotFileName inp.date] else []) := by
  unfold scrape_countries_cities_main mainAfterPhase1
  split
  · simp
  · split
    · simp
    · simp only [apply_ite RunResult.fs, apply_ite RunResult.exitCode]
      split <;> split <;> simp_all

/-- C2: snapshot all-or-nothing.  A run that ends with an uncaught
exception in the orchestration (non-zero exit) leaves no snapshot file
for its date — the finally block deletes it — even though the loop wrote
the file after every successfully processed country with cities (third
conjunct); the file is present after the run exactly when the full loop
completed and the run exited 0. -/
theorem c2_snapshot_all_or_nothing (inp : RunInput) :
    ((scrape_countries_cities_main inp).exitCode ≠ 0 →
      snapshotFileName inp.date ∉ (scrape_countries_cities_main inp).fs)
    ∧ ((scrape_countries_cities_main inp).exitCode = 0 →
      snapshotFileName inp.date ∈ (scrape_countries_cities_main inp).fs)
    ∧ (∀ (dbStore enforceFK : Bool) (mapping : List (String × Nat)) (oc : Nat → ScrapeOutcome)
        (c : Entry) (st : LoopState) (cs : List Entry),
        (dbStore = true → (mapGet mapping c.name).isNone = false) →
        c.url ≠ none →
        (cityAttemptLoop oc (List.range maxRetriesPhase2) 0).result = some cs →
        cs ≠ [] →
        (phase2Step dbStore enforceFK mapping oc c st).fileWritten = true) := by
  refine ⟨?_, ?_, ?_⟩
  · intro hne
    rw [main_fs_spec inp, if_neg hne, List.append_nil]
    exact not_mem_cleanup inp.date _ inp.fs0 (fname_matches_glob inp.date)
  · intro h0
    rw [main_fs_spec inp, if_pos h0]
    simp
  · intro dbStore enforceFK mapping oc c st cs hid hurl hres hcs
    have hskip : (dbStore && (if dbStore = true then mapGet mapping c.name else none).isNone) = false := by
      cases hdb : dbStore with
      | false => rfl
      | true => simp [hid hdb]
    simp only [phase2Step, hskip, Bool.false_eq_true, if_false, if_neg hurl, hres]
    simp [hcs]

/-- Witness for C2: a two-country run with an uncaught orchestration
exception injected before the second loop iteration exits 1, and the
run's snapshot file is absent afterwards even though the first country
had written it. -/
theorem c2_snapshot_witness :
    (scrape_countries_cities_main c2Input).exitCode ≠ 0
    ∧ snapshotFileName c2Input.date ∉ (scrape_countries_cities_main c2Input).fs :=
  ⟨by decide, (c2_snapshot_all_or_nothing c2Input).1 (by decide)⟩

/-- C10: before anything is scraped every file of the snapshot directory
whose name starts with the run date is unlinked, so if the run then
fails, the previously committed same-date snapshot is gone too: after a
failed re-run not a single file with the date's glob pattern remains. -/
theorem c10_same_date_cleanup (inp : RunInput) :
    (cleanupDateFiles inp.date inp.fs0).all (fun f => !(matchesDateGlob inp.date f)) = true
    ∧ ((scrape_countries_cities_main inp).exitCode ≠ 0 →
      ((scrape_countries_cities_main inp).fs).all (fun f => !(matchesDateGlob inp.date f)) = true) := by
  constructor
  · exact all_filter_self inp.fs0 _
  · intro hne
    rw [main_fs_spec inp, if_neg hne, List.append_nil]
    exact all_filter_self inp.fs0 _

/-- Witness for C10: a run whose country phase fails twice exits 1, and
although the directory held a previously committed snapshot for the same
date, no date-prefixed file survives the failed re-run. -/
theorem c10_same_date_cleanup_witness :
    (scrape_countries_cities_main c10Input).exitCode ≠ 0
    ∧ ((scrape_countries_cities_main c10Input).fs).all
        (fun f => !(matchesDateGlob c10Input.date f)) = true :=
  ⟨by decide, (c10_same_date_cleanup c10Input).2 (by decide)⟩

/-- C4: phase-1 termination policy.  When the first scrape_countries
call raises, the browser is restarted and the call retried exactly once
(the run continues from the retry's data with one restart on record);
when the retry raises too the run is terminal with exit 1 after exactly
one restart; and an empty country list returned without an exception
exits 1 immediately, with no restart, no retry, and nothing upserted or
processed. -/
theorem c4_phase1_policy (inp : RunInput) (m1 m2 : String) (d : List Entry) :
    (inp.scrapeFirst = .err m1 → inp.scrapeRetry = .err m2 →
      (scrape_countries_cities_main inp).exitCode = 1
      ∧ (scrape_countries_cities_main inp).restarts = 1
      ∧ (scrape_countries_cities_main inp).processed = [])
    ∧ (inp.scrapeFirst = .err m1 → inp.scrapeRetry = .ok d →
      phase1Result inp = some (d, 1)
      ∧ scrape_countries_cities_main inp = mainAfterPhase1 inp d 1)
    ∧ (inp.scrapeFirst = .ok [] →
      (scrape_countries_cities_main inp).exitCode = 1
      ∧ (scrape_countries_cities_main inp).restarts = 0
      ∧ (scrape_countries_cities_main inp).upsertCalledWith = none
      ∧ (scrape_countries_cities_main inp).processed = []) := by
  refine ⟨?_, ?_, ?_⟩
  · intro h1 h2
    unfold scrape_countries_cities_main phase1Result
    rw [h1, h2]
    exact ⟨rfl, rfl, rfl⟩
  · intro h1 h2
    constructor
    · unfold phase1Result
      rw [h1, h2]
    · unfold scrape_countries_cities_main phase1Result
      rw [h1, h2]
  · intro h1
    unfold scrape_countries_cities_main phase1Result
    rw [h1]
    unfold mainAfterPhase1
    exact ⟨rfl, rfl, rfl, rfl⟩

/-- Witness for C4: a run whose two country-phase attempts both raise
exits 1 with exactly one restart. -/
theorem c4_phase1_policy_witness :
    (scrape_countries_cities_main c4Input).exitCode = 1
    ∧ (scrape_countries_cities_main c4Input).restarts = 1
    ∧ (scrape_countries_cities_main c4Input).processed = [] :=
  (c4_phase1_policy c4Input "net down" "still down" []).1 rfl rfl

/-- Which names the phase-2 loop visits depends only on the skip
conditions, never on the attempt outcomes. -/
theorem phase2Step_processed (ds fk : Bool) (mapping : List (String × Nat))
    (oc : Nat → ScrapeOutcome) (c : Entry) (st : LoopState) :
    (phase2Step ds fk mapping oc c st).processed
      = if (ds && (if ds = true then mapGet mapping c.name else none).isNone) = true
        then st.processed
        else if c.url = none then st.processed
        else st.processed ++ [c.name] := by
  by_cases h1 : (ds && (if ds = true then mapGet mapping c.name else none).isNone) = true
  · simp [phase2Step, h1]
  · by_cases h2 : c.url = none
    · simp [phase2Step, h1, h2]
    · cases hres : (cityAttemptLoop oc (List.range maxRetriesPhase2) 0).result with
      | some cs =>
        by_cases h3 : cs.isEmpty = true <;>
          simp [phase2Step, h1, h2, hres, h3]
      | none => simp [phase2Step, h1, h2, hres]

/-- The phase-2 loop visits the same countries and aborts at the same
injected point whatever the city-scrape outcomes are. -/
theorem phase2Loop_oc_indep (ds fk : Bool) (fat : Option Nat)
    (oc2 oc2' : Nat → Nat → ScrapeOutcome) (mapping : List (String × Nat)) :
    ∀ (l : List Entry) (idx : Nat) (st st' : LoopState), st.processed = st'.processed →
    (phase2Loop ds fk fat oc2 mapping l idx st).1.processed
      = (phase2Loop ds fk fat oc2' mapping l idx st').1.processed
    ∧ (phase2Loop ds fk fat oc2 mapping l idx st).2
      = (phase2Loop ds fk fat oc2' mapping l idx st').2 := by
  intro l
  induction l with
  | nil => intro idx st st' h; exact ⟨h, rfl⟩
  | cons c rest ih =>
    intro idx st st' h
    unfold phase2Loop
    by_cases hf : fat = some idx
    · rw [if_pos hf, if_pos hf]
      exact ⟨h, rfl⟩
    · rw [if_neg hf, if_neg hf]
      apply ih
      rw [phase2Step_processed, phase2Step_processed, h]

/-- Exit code and visited-country list of a run do not depend on what
the city scrapes do: per-country failures are never run-terminal. -/
theorem main_oc_indep (inp : RunInput) (oc2 : Nat → Nat → ScrapeOutcome) :
    (scrape_countries_cities_main inp).exitCode
      = (scrape_countries_cities_main { inp with cityOutcome := oc2 }).exitCode
    ∧ (scrape_countries_cities_main inp).processed
      = (scrape_countries_cities_main { inp with cityOutcome := oc2 }).processed := by
  unfold scrape_countries_cities_main
  rw [show phase1Result { inp with cityOutcome := oc2 } = phase1Result inp from rfl]
  cases hp : phase1Result inp with
  | none => exact ⟨rfl, rfl⟩
  | some p =>
    obtain ⟨data, r0⟩ := p
    unfold mainAfterPhase1
    dsimp only
    by_cases hd : data.isEmpty = true
    · rw [if_pos hd, if_pos hd]
      exact ⟨rfl, rfl⟩
    · rw [if_neg hd, if_neg hd]
      obtain ⟨hproc, hfat⟩ :=
        phase2Loop_oc_indep inp.dbStore inp.enforceFK inp.fatalAt inp.cityOutcome oc2
          (phase1Mapping inp.dbStore inp.db0 data)
          (countriesToProcess data inp.limit) 0
          ⟨phase1DB inp.dbStore inp.db0 data, snapInit data, false, r0, [], []⟩
          ⟨phase1DB inp.dbStore inp.db0 data, snapInit data, false, r0, [], []⟩
          rfl
      constructor
      · simp only [apply_ite RunResult.exitCode]
        rw [hfat]
      · simp only [apply_ite RunResult.processed]
        rw [hfat, hproc]

/-- C5: per-country retry discipline.  The attempt loop consults at most
the first two attempt outcomes (first conjunct); when attempt one raises,
the loop moves to attempt two after performing a browser restart exactly
when the error text carries a session-loss signature, while any other
error only consumes the attempt (second conjunct); two raised attempts
exhaust the country with a not-scraped result (third conjunct); and
exhausting a country's attempts is never terminal for the run — the exit
code and the sequence of visited countries are the same whatever the
city scrapes do (fourth conjunct). -/
theorem c5_per_country_retry (oc oc' : Nat → ScrapeOutcome) (m m' : String)
    (inp : RunInput) (oc2 : Nat → Nat → ScrapeOutcome) :
    (oc 0 = oc' 0 → oc 1 = oc' 1 →
      cityAttemptLoop oc (List.range maxRetriesPhase2) 0
        = cityAttemptLoop oc' (List.range maxRetriesPhase2) 0)
    ∧ (oc 0 = .err m →
      cityAttemptLoop oc (List.range maxRetriesPhase2) 0
        = cityAttemptLoop oc [1] (if isSessionLossError m then 1 else 0))
    ∧ (oc 0 = .err m → oc 1 = .err m' →
      (cityAttemptLoop oc (List.range maxRetriesPhase2) 0).result = none)
    ∧ ((scrape_countries_cities_main inp).exitCode
        = (scrape_countries_cities_main { inp with cityOutcome := oc2 }).exitCode
      ∧ (scrape_countries_cities_main inp).processed
        = (scrape_countries_cities_main { inp with cityOutcome := oc2 }).processed) := by
  refine ⟨?_, ?_, ?_, main_oc_indep inp oc2⟩
  · intro h0 h1
    have e0 : oc' 0 = oc 0 := h0.symm
    have e1 : oc' 1 = oc 1 := h1.symm
    show cityAttemptLoop oc [0, 1] 0 = cityAttemptLoop oc' [0, 1] 0
    cases ho0 : oc 0 with
    | ok cs => simp [cityAttemptLoop, ho0, e0.trans ho0]
    | err m0 =>
      cases ho1 : oc 1 with
      | ok cs => simp [cityAttemptLoop, ho0, e0.trans ho0, ho1, e1.trans ho1]
      | err m1 => simp [cityAttemptLoop, ho0, e0.trans ho0, ho1, e1.trans ho1]
  · intro h0
    show cityAttemptLoop oc [0, 1] 0 = cityAttemptLoop oc [1] (if isSessionLossError m then 1 else 0)
    by_cases hl : isSessionLossError m = true <;>
      simp [cityAttemptLoop, h0, hl]
  · intro h0 h1
    show (cityAttemptLoop oc [0, 1] 0).result = none
    by_cases hl0 : isSessionLossError m = true <;>
      by_cases hl1 : isSessionLossError m' = true <;>
        simp [cityAttemptLoop, h0, h1, hl0, hl1]

/-- Witness for C5: a first attempt failing with a session-loss error
text restarts once and the second attempt's data is used; with two such
failures the country is exhausted; and the concrete fault-free run
visits the same country list as a run whose city scrapes always raise. -/
theorem c5_per_country_retry_witness :
    cityAttemptLoop (fun a => if a = 0 then .err "browser closed" else .ok [⟨"K", none⟩])
        (List.range maxRetriesPhase2) 0
      = cityAttemptLoop (fun a => if a = 0 then .err "browser closed" else .ok [⟨"K", none⟩]) [1]
          (if isSessionLossError "browser closed" then 1 else 0)
    ∧ (cityAttemptLoop (fun _ => .err "browser closed") (List.range maxRetriesPhase2) 0).result = none
    ∧ (scrape_countries_cities_main witnessInput).exitCode
        = (scrape_countries_cities_main
            { witnessInput with cityOutcome := fun _ _ => .err "browser closed" }).exitCode
    ∧ (scrape_countries_cities_main witnessInput).processed
        = (scrape_countries_cities_main
            { witnessInput with cityOutcome := fun _ _ => .err "browser closed" }).processed := by
  refine ⟨?_, ?_, ?_, ?_⟩
  · exact (c5_per_country_retry (fun a => if a = 0 then .err "browser closed" else .ok [⟨"K", none⟩])
      (fun _ => .ok []) "browser closed" "x" witnessInput (fun _ _ => .ok [])).2.1 rfl
  · exact (c5_per_country_retry (fun _ => .err "browser closed")
      (fun _ => .ok []) "browser closed" "browser closed" witnessInput (fun _ _ => .ok [])).2.2.1 rfl rfl
  · exact (c5_per_country_retry (fun _ => .err "browser closed")
      (fun _ => .ok []) "x" "x" witnessInput
      (fun _ _ => .err "browser closed")).2.2.2.1
  · exact (c5_per_country_retry (fun _ => .err "browser closed")
      (fun _ => .ok []) "x" "x" witnessInput
      (fun _ _ => .err "browser closed")).2.2.2.2

theorem countriesToProcess_zero (data : List Entry) :
    countriesToProcess data (some 0) = data := by
  simp [countriesToProcess]

theorem mainAfterPhase1_limit_zero (inp : RunInput) (data : List Entry) (r0 : Nat) :
    mainAfterPhase1 { inp with limit := some 0 } data r0
      = mainAfterPhase1 { inp with limit := none } data r0 := by
  unfold mainAfterPhase1
  dsimp only
  rw [show countriesToProcess data (some 0) = countriesToProcess data none from
    countriesToProcess_zero data]

/-- C9: the limit flag caps only the phase-2 city loop.  Whatever limit
is set, the country upsert receives the full scraped batch and the
snapshot is initialised with one entry per scraped country; the slice is
guarded by Python truthiness, so limit 0 behaves exactly like no limit
at all (every country is processed) rather than processing none. -/
theorem c9_limit_semantics (inp : RunInput) (d : List Entry) (r0 : Nat)
    (hp : phase1Result inp = some (d, r0)) (hne : d ≠ []) :
    (inp.dbStore = true → (scrape_countries_cities_main inp).upsertCalledWith = some d)
    ∧ (scrape_countries_cities_main inp).snapshotInit.map SnapCountry.country = d.map Entry.name
    ∧ countriesToProcess d (some 0) = d
    ∧ scrape_countries_cities_main { inp with limit := some 0 }
        = scrape_countries_cities_main { inp with limit := none } := by
  have hd : ¬ d.isEmpty = true := by
    intro h
    exact hne (List.isEmpty_iff.mp h)
  refine ⟨?_, ?_, countriesToProcess_zero d, ?_⟩
  · intro hdb
    unfold scrape_countries_cities_main
    rw [hp]
    unfold mainAfterPhase1
    dsimp only
    rw [if_neg hd]
    simp only [apply_ite RunResult.upsertCalledWith]
    simp [hdb]
  · unfold scrape_countries_cities_main
    rw [hp]
    unfold mainAfterPhase1
    dsimp only
    rw [if_neg hd]
    simp only [apply_ite RunResult.snapshotInit]
    simp [snapInit, List.map_map, Function.comp]
  · unfold scrape_countries_cities_main
    rw [show phase1Result { inp with limit := some 0 } = phase1Result inp from rfl,
        show phase1Result { inp with limit := none } = phase1Result inp from rfl]
    cases phase1Result inp with
    | none => dsimp only
    | some p => exact mainAfterPhase1_limit_zero inp p.1 p.2

/-- Witness for C9: the concrete two-country run with database storage
on: the upsert argument is the full scraped list, the snapshot lists
both countries, and the run with limit 0 equals the run with no limit. -/
theorem c9_limit_semantics_witness :
    witnessInput.dbStore = true
    ∧ (scrape_countries_cities_main witnessInput).upsertCalledWith
        = some [⟨"Pakistan", some "https://www.weather-forecast.com/countries/Pakistan"⟩,
                ⟨"India", some "https://www.weather-forecast.com/countries/India"⟩]
    ∧ (scrape_countries_cities_main witnessInput).snapshotInit.map SnapCountry.country
        = [⟨"Pakistan", some "https://www.weather-forecast.com/countries/Pakistan"⟩,
           ⟨"India", some "https://www.weather-forecast.com/countries/India"⟩].map Entry.name
    ∧ scrape_countries_cities_main { witnessInput with limit := some 0 }
        = scrape_countries_cities_main { witnessInput with limit := none } := by
  have h := c9_limit_semantics witnessInput
    [⟨"Pakistan", some "https://www.weather-forecast.com/countries/Pakistan"⟩,
     ⟨"India", some "https://www.weather-forecast.com/countries/India"⟩] 0 rfl (by decide)
  exact ⟨rfl, h.1 rfl, h.2.1, h.2.2.2⟩

/-- C3 (amended): an exception raised during the country-upsert
transaction rolls the whole batch back — the durable store is exactly
the one from before the call — and the error is logged, but the
exception is caught and not re-raised: upsert_countries_to_db returns
normally with the name-to-identity mapping accumulated before the
failure, which can still contain identities of rows that were rolled
back (see the counterexample). -/
theorem c3_rollback_not_propagated (data : List Entry) (db : DB) (k : Nat)
    (hk : k < data.length) :
    (upsert_countries_to_db data db (some k)).db = db
    ∧ (upsert_countries_to_db data db (some k)).committed = false
    ∧ (upsert_countries_to_db data db (some k)).mapping
        = (runCountryUpsert (data.take k) ⟨db.countries, [], 0, 0, db.nextId⟩).mapping := by
  simp [upsert_countries_to_db, hk]

/-- Witness for C3: a two-entry batch failing while the second entry is
processed leaves the store untouched. -/
theorem c3_rollback_witness :
    (1 < ([⟨"A", some "u"⟩, ⟨"B", some "v"⟩] : List Entry).length)
    ∧ (upsert_countries_to_db [⟨"A", some "u"⟩, ⟨"B", some "v"⟩] ⟨[], [], 1⟩ (some 1)).db = ⟨[], [], 1⟩
    ∧ (upsert_countries_to_db [⟨"A", some "u"⟩, ⟨"B", some "v"⟩] ⟨[], [], 1⟩ (some 1)).committed = false
    ∧ (upsert_countries_to_db [⟨"A", some "u"⟩, ⟨"B", some "v"⟩] ⟨[], [], 1⟩ (some 1)).mapping
        = (runCountryUpsert ([⟨"A", some "u"⟩, ⟨"B", some "v"⟩].take 1) ⟨[], [], 0, 0, 1⟩).mapping := by
  exact ⟨by decide, c3_rollback_not_propagated [⟨"A", some "u"⟩, ⟨"B", some "v"⟩] ⟨[], [], 1⟩ 1 (by decide)⟩

/-- Counterexample for C3 as stated: after the injected failure the
returned mapping still maps name A to identity 1, although the rollback
left the countries table empty — so the returned mapping does contain
the identity of a rolled-back row, and the exception was returned
swallowed rather than propagated. -/
theorem c3_mapping_counterexample :
    (upsert_countries_to_db [⟨"A", some "u"⟩, ⟨"B", some "v"⟩] ⟨[], [], 1⟩ (some 1)).committed = false
    ∧ mapGet (upsert_countries_to_db [⟨"A", some "u"⟩, ⟨"B", some "v"⟩] ⟨[], [], 1⟩ (some 1)).mapping "A" = some 1
    ∧ (upsert_countries_to_db [⟨"A", some "u"⟩, ⟨"B", some "v"⟩] ⟨[], [], 1⟩ (some 1)).db.countries = [] := by
  exact ⟨by decide, by decide, by decide⟩

/-- C6: the City model declares country_id as a ForeignKey to
countries.id, and the spec demands that a city upsert for an absent
country identity fail without recording an orphan row — which is what
happens when the backing engine enforces the constraint (second half).
But the repository's default engine is sqlite with no
PRAGMA foreign_keys=ON (app/core/db.py lines 9-21), so the constraint is
not enforced and the same call durably commits an orphan city row whose
country_id references no country (first half): the code contradicts its
own schema declaration. -/
theorem c6_orphan_city :
    (upsert_cities_to_db [⟨"Xville", none⟩] 3 ⟨[], [], 7⟩ false none).committed = true
    ∧ (upsert_cities_to_db [⟨"Xville", none⟩] 3 ⟨[], [], 7⟩ false none).db.cities
        = [⟨7, "Xville", none, 3⟩]
    ∧ (upsert_cities_to_db [⟨"Xville", none⟩] 3 ⟨[], [], 7⟩ false none).db.countries = []
    ∧ (upsert_cities_to_db [⟨"Xville", none⟩] 3 ⟨[], [], 7⟩ true none).committed = false
    ∧ (upsert_cities_to_db [⟨"Xville", none⟩] 3 ⟨[], [], 7⟩ true none).db = ⟨[], [], 7⟩ := by
  exact ⟨by decide, by decide, by decide, by decide, by decide⟩

end Scraper
